import Mathlib

/-!
Shallow embedding of the state-synchronization and command-dispatch core of
the Instagram automation dashboard (`src/frontend/src/App.js`).

JavaScript objects used as string-keyed dictionaries (`devices`, `servers`,
`tasks`, `serverDevices`) are modelled as association lists
`List (String × α)` in insertion order, matching `Object.entries` iteration
order.  JavaScript `null`/`undefined`/absent fields are modelled with
`Option`.  `parseInt(str, 10)` is modelled by `jsParseInt10`, returning
`none` for `NaN`.  Each command handler of `App.js` is modelled as a pure
function of the request outcome (`ReqOutcome`) and the component state
(`StoreState`); the returned `Bool` records whether `fetchStatus` was
invoked afterwards, and `addDevice` / `addServer` additionally return the
request body that was sent (`some body`; `none` would mean no request).
-/

/-- A device record as consumed from the `/status` snapshot
(`DeviceRecord` fields `name, status, platform_name, platform_version,
model, server, is_simulator, error, managed_accounts`). -/
structure Device where
  name : String := ""
  status : String := ""
  platform_name : String := ""
  platform_version : String := ""
  model : Option String := none
  server : Option String := none
  is_simulator : Bool := false
  error : Option String := none
  managed_accounts : List String := []
  deriving DecidableEq, Repr

/-- A server record as consumed from the snapshot (`name, status, host,
port, device_count, max_devices`). -/
structure Server where
  name : String := ""
  status : String := ""
  host : String := ""
  port : Nat := 0
  device_count : Nat := 0
  max_devices : Nat := 0
  deriving DecidableEq, Repr

/-- A task record (`TaskRecord`) as consumed from the snapshot
(`task_name, device_id, running_for, interval`); named `FleetTask` here
because `Task` is taken by the Lean core library. -/
structure FleetTask where
  task_name : String := ""
  device_id : String := ""
  running_for : Nat := 0
  interval : Nat := 0
  deriving DecidableEq, Repr

/-- One complete `/status` response: overall status plus the three
string-keyed mappings (modelled as association lists in insertion
order; the `|| {}` defaults of `fetchStatus` are the empty lists). -/
structure Snapshot where
  status : String := ""
  devices : List (String × Device) := []
  servers : List (String × Server) := []
  tasks : List (String × FleetTask) := []
  deriving DecidableEq, Repr

/-- The `newDevice` form state of `App.js`. -/
structure DeviceForm where
  name : String := ""
  udid : String := ""
  platformName : String := "iOS"
  platformVersion : String := ""
  deviceName : String := ""
  automationName : String := "XCUITest"
  deriving DecidableEq, Repr

/-- The `newServer` form state of `App.js` (field values are form strings;
the initial `max_devices : 5` is coerced to the string `"5"` on its way
through `parseInt`). -/
structure ServerForm where
  name : String := ""
  host : String := "127.0.0.1"
  port : String := ""
  max_devices : String := "5"
  deriving DecidableEq, Repr

/-- The body `addServer` posts to `/servers`: the form spread with
`port` and `max_devices` replaced by their `parseInt(_, 10)` values
(`none` models `NaN`). -/
structure ServerRequestBody where
  name : String := ""
  host : String := ""
  port : Option Int := none
  max_devices : Option Int := none
  deriving DecidableEq, Repr

/-- Response body of `POST /devices/{id}/setup` (and the locally built
failure record of `executeSetupDeviceTask`). -/
structure SetupResponse where
  success : Bool := false
  message : String := ""
  error : Option String := none
  deriving DecidableEq, Repr

/-- Response body of `POST /refresh`. -/
structure RefreshResponse where
  success : Bool := false
  message : String := ""
  detected_devices_count : Nat := 0
  error : Option String := none
  deriving DecidableEq, Repr

/-- The `taskResult` slot: `{device, task, result}`. -/
structure TaskResult where
  device : String := ""
  task : String := ""
  result : SetupResponse := {}
  deriving DecidableEq, Repr

/-- The component state of `App` (the State Store): the snapshot-derived
fields, the derived `serverDevices` grouping, and the UI-only fields. -/
structure StoreState where
  status : String := "loading"
  devices : List (String × Device) := []
  servers : List (String × Server) := []
  serverDevices : List (String × List String) := []
  tasks : List (String × FleetTask) := []
  expandedServers : List (String × Bool) := []
  showOnlyRealDevices : Bool := true
  newDevice : DeviceForm := {}
  newServer : ServerForm := {}
  isAddingDevice : Bool := false
  isAddingServer : Bool := false
  error : Option String := none
  taskResult : Option TaskResult := none
  deriving DecidableEq, Repr

/-- The initial React state of `App`. -/
def initState : StoreState := {}

/-- Outcome of one HTTP request: `ok` with the parsed response body, or
`err` with the message the handler would surface (for handlers that read
`err.response?.data?.error || err.message`, the payload is that resolved
text). -/
inductive ReqOutcome (α : Type) where
  | ok : α → ReqOutcome α
  | err : String → ReqOutcome α
  deriving DecidableEq, Repr

/-- Whether the request completed without throwing. -/
def ReqOutcome.isOk {α : Type} : ReqOutcome α → Bool
  | .ok _ => true
  | .err _ => false

/-- First-match association-list lookup, i.e. property access `m[k]` on a
JS object modelled as an insertion-ordered list. -/
def lookupA {α : Type} (m : List (String × α)) (k : String) : Option α :=
  match m with
  | [] => none
  | (k', v) :: rest => if k' = k then some v else lookupA rest k

/-- Reads `m[k] || []` on the grouping object: the bucket for `k`, defaulting to
the empty list when the key is absent. -/
def bucketGet (g : List (String × List String)) (k : String) : List String :=
  match g with
  | [] => []
  | (k', v) :: rest => if k' = k then v else bucketGet rest k

/-- Performs the push step of the grouping loop: append `v` to the bucket
for `k`, creating the bucket at the end on first use (the JS code guards
with a falsy check before `push`). -/
def addToBucket (g : List (String × List String)) (k : String) (v : String) :
    List (String × List String) :=
  match g with
  | [] => [(k, [v])]
  | (k', vs) :: rest =>
    if k' = k then (k', vs ++ [v]) :: rest else (k', vs) :: addToBucket rest k v

/-- JS truthiness of the `server` field in `if (serverId) { ... }`:
`none` models `null`/`undefined`, and the empty string is also falsy.
Returns the bucket key when truthy. -/
def serverKey (d : Device) : Option String :=
  match d.server with
  | none => none
  | some s => if s = "" then none else some s

/-- One iteration of the `Object.entries(devices).forEach` loop of
`fetchStatus` that builds `tempServerDevices`. -/
def groupStep (g : List (String × List String)) (p : String × Device) :
    List (String × List String) :=
  match serverKey p.2 with
  | none => g
  | some sid => addToBucket g sid p.1

/-- The server-id → device-ids grouping built inside `fetchStatus`
(`tempServerDevices`): scan all devices once, bucketing each device id
under its truthy `server` field. -/
def groupDevicesByServer (devices : List (String × Device)) :
    List (String × List String) :=
  devices.foldl groupStep []

/-- JS `a || b` where `a` is an optional string: falsy (`none` or the
empty string) falls through to `b`. -/
def jsOr (a : Option String) (b : String) : String :=
  match a with
  | some x => if x = "" then b else x
  | none => b

/-- Value of a list of decimal digit characters. -/
def digitsToNat (ds : List Char) : Nat :=
  ds.foldl (fun n c => n * 10 + (c.toNat - '0'.toNat)) 0

/-- Model of JavaScript `parseInt(str, 10)`: skip leading whitespace, an
optional sign, then read the longest prefix of decimal digits; `none`
models `NaN` (no digits found). -/
def jsParseInt10 (str : String) : Option Int :=
  let cs := str.data.dropWhile
    (fun c => c = ' ' ∨ c = '\t' ∨ c = '\n' ∨ c = '\r')
  match cs with
  | '-' :: rest =>
    let ds := rest.takeWhile Char.isDigit
    if ds.isEmpty then none else some (-(digitsToNat ds : Int))
  | '+' :: rest =>
    let ds := rest.takeWhile Char.isDigit
    if ds.isEmpty then none else some (digitsToNat ds : Int)
  | _ =>
    let ds := cs.takeWhile Char.isDigit
    if ds.isEmpty then none else some (digitsToNat ds : Int)

/-- The success branch of `fetchStatus`: replace the snapshot-derived
fields wholesale, rebuild the `serverDevices` grouping from the new
devices, and clear the error slot (`setError(null)`). -/
def fetchStatusSuccess (resp : Snapshot) (s : StoreState) : StoreState :=
  { s with
    status := resp.status
    devices := resp.devices
    servers := resp.servers
    tasks := resp.tasks
    serverDevices := groupDevicesByServer resp.devices
    error := none }

/-- The catch branch of `fetchStatus`: surface the transport error, touch
nothing else. -/
def fetchStatusFailure (msg : String) (s : StoreState) : StoreState :=
  { s with error := some ("Error fetching status: " ++ msg) }

/-- One element of the list `getDevicesForServer` returns:
`{ id: deviceId, ...devices[deviceId] }`.  When `devices[deviceId]` is
`undefined` the spread contributes nothing, so `info` is `none`. -/
structure ResolvedDevice where
  id : String := ""
  info : Option Device := none
  deriving DecidableEq, Repr

/-- Reads `device.is_simulator` on a resolved device: `undefined` (missing
device record) is falsy. -/
def resolvedIsSimulator (r : ResolvedDevice) : Bool :=
  match r.info with
  | some d => d.is_simulator
  | none => false

/-- Models `getDevicesForServer`: read the pre-built grouping (`|| []` default),
resolve each device id against `devices`, then apply the simulator
filter `!showOnlyRealDevices || !device.is_simulator`. -/
def getDevicesForServer (s : StoreState) (serverId : String) :
    List ResolvedDevice :=
  let deviceIds := (lookupA s.serverDevices serverId).getD []
  (deviceIds.map (fun did => { id := did, info := lookupA s.devices did }))
    |>.filter (fun r => !s.showOnlyRealDevices || !(resolvedIsSimulator r))

/-- Models `getFilteredDevices`: identity when showing all devices, otherwise
keep only the entries with `!deviceInfo.is_simulator` (the rebuilt object
preserves iteration order). -/
def getFilteredDevices (s : StoreState) : List (String × Device) :=
  if !s.showOnlyRealDevices then s.devices
  else s.devices.filter (fun p => !p.2.is_simulator)

/-- The `realDeviceCount` computed per server card in the render:
`getDevicesForServer(serverId).filter(d => !d.is_simulator).length`. -/
def serverCardRealDeviceCount (s : StoreState) (serverId : String) : Nat :=
  ((getDevicesForServer s serverId).filter
    (fun r => !(resolvedIsSimulator r))).length

/-- The device count displayed on a server card: `realDeviceCount` when
the filter toggle shows only real devices, otherwise the server's
self-reported `device_count`. -/
def serverCardBadgeCount (s : StoreState) (serverId : String) (srv : Server) :
    Nat :=
  if s.showOnlyRealDevices then serverCardRealDeviceCount s serverId
  else srv.device_count

/-- Models `initializeSystem` from `App.js`: optimistically set the status
to `"initializing"`, post `/initialize`; on success `fetchStatus` is
awaited (returned flag `true`); on failure the error is surfaced and no
re-fetch happens. -/
def initSystem (outcome : ReqOutcome Unit) (s : StoreState) :
    StoreState × Bool :=
  let s1 := { s with status := "initializing" }
  match outcome with
  | .ok _ => (s1, true)
  | .err msg =>
    ({ s1 with error := some ("Error initializing system: " ++ msg) }, false)

/-- Models `initializeDevice` from `App.js`: post
`/devices/{id}/initialize`; re-fetch only on success. -/
def initDevice (_deviceId : String) (outcome : ReqOutcome Unit)
    (s : StoreState) : StoreState × Bool :=
  match outcome with
  | .ok _ => (s, true)
  | .err msg =>
    ({ s with error := some ("Error initializing device: " ++ msg) }, false)

/-- Models `refreshDevices`: clear the error slot, post `/refresh`; on a response
with `success` write the informational message into the error slot and
re-fetch; on `success: false` or a thrown request surface the error and
do not re-fetch. -/
def refreshDevices (outcome : ReqOutcome RefreshResponse) (s : StoreState) :
    StoreState × Bool :=
  let s1 := { s with error := none }
  match outcome with
  | .ok resp =>
    if resp.success then
      ({ s1 with error := some (resp.message ++ " ("
          ++ toString resp.detected_devices_count ++ " devices detected)") },
        true)
    else
      ({ s1 with error := some ("Error refreshing devices: "
          ++ jsOr resp.error resp.message) }, false)
  | .err msg =>
    ({ s1 with error := some ("Error refreshing devices: " ++ msg) }, false)

/-- Models `addDevice`: unconditionally post the current `newDevice` form to
`/devices` (the handler contains no validation; the third component is
the request body sent — always `some`).  On success close and clear the
form and re-fetch; on failure surface the error, leaving the form open. -/
def addDevice (outcome : ReqOutcome Unit) (s : StoreState) :
    StoreState × Bool × Option DeviceForm :=
  match outcome with
  | .ok _ =>
    ({ s with isAddingDevice := false, newDevice := {} }, true, some s.newDevice)
  | .err msg =>
    ({ s with error := some ("Error adding device: " ++ msg) }, false,
      some s.newDevice)

/-- The body `addServer` sends: the form with `port` and `max_devices` run
through `parseInt(_, 10)`. -/
def serverRequestBody (f : ServerForm) : ServerRequestBody :=
  { name := f.name
    host := f.host
    port := jsParseInt10 f.port
    max_devices := jsParseInt10 f.max_devices }

/-- Models `addServer`: unconditionally post the parsed `newServer` form to
`/servers` (no validation in the handler; third component is the request
body sent — always `some`).  On success close and reset the form and
re-fetch; on failure surface the error. -/
def addServer (outcome : ReqOutcome Unit) (s : StoreState) :
    StoreState × Bool × Option ServerRequestBody :=
  match outcome with
  | .ok _ =>
    ({ s with isAddingServer := false, newServer := {} }, true,
      some (serverRequestBody s.newServer))
  | .err msg =>
    ({ s with error := some ("Error adding server: " ++ msg) }, false,
      some (serverRequestBody s.newServer))

/-- Models `executeSetupDeviceTask`: clear both slots, post
`/devices/{id}/setup`; if the request completes, record the task result
and (when `success` is false) surface an error, then re-fetch; if the
request throws, record a failing task result and the error, with no
re-fetch. -/
def executeSetupDeviceTask (deviceId : String)
    (outcome : ReqOutcome SetupResponse) (s : StoreState) :
    StoreState × Bool :=
  let s1 := { s with taskResult := none, error := none }
  match outcome with
  | .ok resp =>
    let s2 := { s1 with
      taskResult := some { device := deviceId, task := "setup_device",
                           result := resp } }
    if resp.success then (s2, true)
    else
      ({ s2 with error := some ("Error starting setup task for " ++ deviceId
          ++ ": " ++ jsOr resp.error "Unknown error") }, true)
  | .err msg =>
    let failResult : TaskResult :=
      { device := deviceId, task := "setup_device",
        result := { success := false, error := some msg } }
    ({ s1 with
        error := some ("Error executing setup task for " ++ deviceId ++ ": "
          ++ msg),
        taskResult := some failResult }, false)

/-- Models `stopTask`: post `/devices/{id}/task/{name}/stop`; re-fetch only on
success. -/
def stopTask (_deviceId _taskName : String) (outcome : ReqOutcome Unit)
    (s : StoreState) : StoreState × Bool :=
  match outcome with
  | .ok _ => (s, true)
  | .err msg =>
    ({ s with error := some ("Error stopping task: " ++ msg) }, false)

/-- A physical (non-simulator) device assigned to `srv1`, for concrete
checks. -/
def wDev1 : Device :=
  { name := "iPhone 12", status := "ready", server := some "srv1" }

/-- A simulator assigned to `srv1`, for concrete checks. -/
def wDev2 : Device :=
  { name := "iPhone Sim", status := "ready", server := some "srv1",
    is_simulator := true }

/-- A concrete snapshot with one server and two devices (one real, one
simulator), both assigned to `srv1`. -/
def wSnap : Snapshot :=
  { status := "running"
    devices := [("dev1", wDev1), ("dev2", wDev2)]
    servers := [("srv1", { name := "srv1", status := "running",
                           host := "127.0.0.1", port := 4723,
                           device_count := 2, max_devices := 5 })]
    tasks := [] }

/-- The store after applying `wSnap` to the initial state (the grouping is
the one `fetchStatus` builds). -/
def wStore : StoreState := fetchStatusSuccess wSnap initState

/-- Helper: `bucketGet` after `addToBucket` — the bucket for the pushed
key grows by the pushed value at the end; every other bucket is
unchanged. -/
theorem bucketGet_addToBucket (g : List (String × List String))
    (k v k' : String) :
    bucketGet (addToBucket g k v) k'
      = bucketGet g k' ++ (if k = k' then [v] else []) := by
  induction g with
  | nil =>
    by_cases h : k = k' <;> simp [addToBucket, bucketGet, h]
  | cons p rest ih =>
    obtain ⟨k'', vs⟩ := p
    by_cases h1 : k'' = k
    · subst h1
      by_cases h2 : k'' = k' <;> simp [addToBucket, bucketGet, h2]
    · by_cases h2 : k'' = k'
      · subst h2
        have hk : ¬ k = k'' := fun h => h1 h.symm
        simp [addToBucket, bucketGet, h1, hk]
      · simp [addToBucket, bucketGet, h1, h2, ih]

/-- Helper: the bucket for `sid` after folding `groupStep` over a device
list is the prior bucket extended by the ids of exactly the devices whose
truthy `server` field equals `sid`, in scan order. -/
theorem bucketGet_groupFold (devices : List (String × Device))
    (g : List (String × List String)) (sid : String) :
    bucketGet (devices.foldl groupStep g) sid
      = bucketGet g sid
        ++ (devices.filter
              (fun p => decide (serverKey p.2 = some sid))).map Prod.fst := by
  induction devices generalizing g with
  | nil => simp
  | cons p rest ih =>
    rw [List.foldl_cons, ih]
    cases h : serverKey p.2 with
    | none => simp [groupStep, h, List.filter_cons]
    | some k =>
      by_cases hk : k = sid
      · subst hk
        simp [groupStep, h, List.filter_cons, bucketGet_addToBucket]
      · simp [groupStep, h, List.filter_cons, bucketGet_addToBucket, hk,
          Option.some_inj]

/-- Helper: the bucket for `sid` in the grouping built by `fetchStatus` is
exactly the ids of the devices whose truthy `server` field is `sid`, in
snapshot order. -/
theorem bucketGet_groupDevicesByServer (devices : List (String × Device))
    (sid : String) :
    bucketGet (groupDevicesByServer devices) sid
      = (devices.filter
          (fun p => decide (serverKey p.2 = some sid))).map Prod.fst := by
  rw [groupDevicesByServer, bucketGet_groupFold]
  simp [bucketGet]

/-- Helper: a key absent from a pair list is counted zero times among the
keys of any filtered sublist. -/
theorem count_filter_keys_zero (l : List (String × Device))
    (p : String × Device → Bool) (did : String)
    (h : did ∉ l.map Prod.fst) :
    ((l.filter p).map Prod.fst).count did = 0 := by
  rw [List.count_eq_zero]
  intro hmem
  apply h
  rcases List.mem_map.mp hmem with ⟨q, hq, rfl⟩
  exact List.mem_map_of_mem _ (List.mem_of_mem_filter hq)

/-- Helper: in a pair list with pairwise-distinct keys, the key of a
member pair appears among the keys of a filtered sublist exactly when
the filter keeps that pair, and then exactly once. -/
theorem count_filter_keys_nodup (l : List (String × Device))
    (p : String × Device → Bool) (did : String) (d : Device) :
    (l.map Prod.fst).Nodup → (did, d) ∈ l →
    ((l.filter p).map Prod.fst).count did = if p (did, d) then 1 else 0 := by
  induction l with
  | nil => intro _ h; cases h
  | cons q rest ih =>
    intro hnodup hmem
    rw [List.map_cons, List.nodup_cons] at hnodup
    rcases List.mem_cons.mp hmem with h | hrest
    · subst h
      rw [List.filter_cons]
      by_cases hp : p (did, d)
      · simp [hp, List.count_cons, count_filter_keys_zero rest p did hnodup.1]
      · simp [hp, count_filter_keys_zero rest p did hnodup.1]
    · have hne : ¬ q.1 = did := by
        intro h
        exact hnodup.1 (h ▸ List.mem_map_of_mem Prod.fst hrest)
      rw [List.filter_cons]
      by_cases hp : p q
      · simp [hp, List.count_cons, hne, ih hnodup.2 hrest]
      · simp [hp, ih hnodup.2 hrest]

/-- C7: applying snapshot `a` and then snapshot `b` to the Store yields a
state identical to applying `b` alone — snapshot application replaces all
snapshot-derived fields (status, devices, servers, tasks, grouping) with
functions of the new snapshot only, with no residual merge. -/
theorem snapshot_replacement_no_residual_merge (a b : Snapshot)
    (s : StoreState) :
    fetchStatusSuccess b (fetchStatusSuccess a s) = fetchStatusSuccess b s :=
  rfl

/-- C10: every successful snapshot fetch sets the shared error slot to
`none` — clearing a prior command error and the informational message
`refreshDevices` wrote there — while leaving the task-result slot
untouched. -/
theorem fetch_clears_error_keeps_taskResult (snap : Snapshot)
    (s : StoreState) :
    (fetchStatusSuccess snap s).error = none
    ∧ (fetchStatusSuccess snap s).taskResult = s.taskResult
    ∧ (∀ o : ReqOutcome RefreshResponse,
        (fetchStatusSuccess snap (refreshDevices o s).1).error = none)
    ∧ (∀ msg : String,
        (fetchStatusSuccess snap (initSystem (.err msg) s).1).error = none) :=
  ⟨rfl, rfl, fun _ => rfl, fun _ => rfl⟩

/-- C1 (counterexample): a failed `initializeSystem` request does prevent
the forced re-fetch — the catch branch surfaces the error and never calls
`fetchStatus`. -/
theorem initSystem_failed_request_skips_refetch :
    (initSystem (.err "Network Error") initState).2 = false := rfl

/-- C1 (amended): each user-initiated command triggers the forced
snapshot re-fetch exactly when its request completes without throwing
(for `refreshDevices`, only when the response additionally reports
`success`); a thrown request skips the re-fetch. -/
theorem commands_refetch_iff_request_success (s : StoreState) :
    (∀ o : ReqOutcome Unit, (initSystem o s).2 = o.isOk)
    ∧ (∀ (did : String) (o : ReqOutcome Unit),
        (initDevice did o s).2 = o.isOk)
    ∧ (∀ o : ReqOutcome RefreshResponse,
        (refreshDevices o s).2
          = match o with | .ok r => r.success | .err _ => false)
    ∧ (∀ o : ReqOutcome Unit, (addDevice o s).2.1 = o.isOk)
    ∧ (∀ o : ReqOutcome Unit, (addServer o s).2.1 = o.isOk)
    ∧ (∀ (did : String) (o : ReqOutcome SetupResponse),
        (executeSetupDeviceTask did o s).2 = o.isOk)
    ∧ (∀ (did tn : String) (o : ReqOutcome Unit),
        (stopTask did tn o s).2 = o.isOk) := by
  refine ⟨fun o => ?_, fun did o => ?_, fun o => ?_, fun o => ?_,
    fun o => ?_, fun did o => ?_, fun did tn o => ?_⟩
  · cases o <;> rfl
  · cases o <;> rfl
  · cases o with
    | ok r => by_cases h : r.success <;> simp [refreshDevices, h]
    | err m => rfl
  · cases o <;> rfl
  · cases o <;> rfl
  · cases o with
    | ok r =>
      by_cases h : r.success <;>
        simp [executeSetupDeviceTask, h, ReqOutcome.isOk]
    | err m => rfl
  · cases o <;> rfl

/-- C3 (counterexample): after a failed `initializeSystem` the observable
status is the optimistic `"initializing"`, not the status held before the
call (`"not_initialized"` here) — nothing reverts it locally. -/
theorem initSystem_failure_keeps_optimistic_status :
    (initSystem (.err "Network Error")
        { initState with status := "not_initialized" }).1.status
      ≠ "not_initialized" := by
  decide

/-- C3 (amended): `initializeSystem` optimistically sets the status to
`"initializing"` before the request; on failure an error is surfaced and
the status stays at the optimistic `"initializing"` value until the next
snapshot replaces it with the authoritative status. -/
theorem initSystem_status_lifecycle (s : StoreState) (msg : String) :
    (initSystem (.ok ()) s).1.status = "initializing"
    ∧ (initSystem (.err msg) s).1.status = "initializing"
    ∧ (initSystem (.err msg) s).1.error
        = some ("Error initializing system: " ++ msg)
    ∧ (∀ snap : Snapshot,
        (fetchStatusSuccess snap (initSystem (.err msg) s).1).status
          = snap.status) :=
  ⟨rfl, rfl, rfl, fun _ => rfl⟩

/-- C6 (counterexample): invoking `addDevice` on the initial state — whose
`name` field is the empty string — still issues the network request; the
handler contains no validation short-circuit. -/
theorem addDevice_empty_name_still_sends :
    initState.newDevice.name = ""
    ∧ (addDevice (.ok ()) initState).2.2 ≠ none :=
  ⟨rfl, by decide⟩

/-- C6 (amended): `addDevice` performs no client-side validation — it
always issues the network request with the current form contents, even
when the `name` field is empty (required fields are enforced only by the
HTML `required` attributes of the form, outside the handler). -/
theorem addDevice_always_sends (s : StoreState) (o : ReqOutcome Unit) :
    (addDevice o s).2.2 = some s.newDevice := by
  cases o <;> rfl

/-- A `newServer` form with a non-numeric port, for the C5
counterexample. -/
def badPortForm : ServerForm :=
  { name := "srv3", host := "127.0.0.1", port := "abc", max_devices := "5" }

/-- The body `addServer` sends for `badPortForm`: port is `NaN`. -/
def badPortBody : ServerRequestBody :=
  { name := "srv3", host := "127.0.0.1", port := none, max_devices := some 5 }

/-- C5 (counterexample): with a non-numeric port `"abc"` the submission
is not rejected — `addServer` still sends the request, with the port as
`NaN` (modelled `none`); no `ValidationError` path exists. -/
theorem addServer_nonnumeric_port_still_sends :
    (addServer (.ok ()) { initState with newServer := badPortForm }).2.2
      = some badPortBody
    ∧ (addServer (.ok ()) { initState with newServer := badPortForm }).2.2
      ≠ none := by
  refine ⟨by decide, by decide⟩

/-- The example `newServer` form of the spec scenario, with numeric
strings in both parsed fields. -/
def goodPortForm : ServerForm :=
  { name := "srv3", host := "127.0.0.1", port := "4725", max_devices := "5" }

/-- The body `addServer` sends for `goodPortForm`: both fields parsed. -/
def goodPortBody : ServerRequestBody :=
  { name := "srv3", host := "127.0.0.1", port := some 4725,
    max_devices := some 5 }

/-- C5 (amended): `addServer` converts the port and max_devices form
fields with `parseInt(_, 10)` before sending (`"4725"` to `4725`, `"5"`
to `5`), but performs no client-side validation: the request is always
sent, a non-numeric port going out as `NaN`. -/
theorem addServer_parses_and_always_sends (s : StoreState)
    (o : ReqOutcome Unit) :
    (addServer o s).2.2 = some (serverRequestBody s.newServer)
    ∧ serverRequestBody goodPortForm = goodPortBody := by
  constructor
  · cases o <;> rfl
  · decide

/-- A device whose `server` field names a server id that appears nowhere
in the snapshot's servers, for the C2 counterexample. -/
def orphanDevice : Device :=
  { name := "orphan", status := "ready", server := some "srvX" }

/-- A snapshot containing `orphanDevice` and no servers at all. -/
def orphanSnap : Snapshot :=
  { status := "running", devices := [("dev1", orphanDevice)], servers := [],
    tasks := [] }

/-- C2 (counterexample): the grouping never consults the servers mapping —
a device whose `server` id refers to no server in the snapshot still lands
in a bucket (keyed by the unknown id), contradicting the claim that such a
device appears in no bucket. -/
theorem group_orphan_device_bucketed :
    lookupA orphanSnap.servers "srvX" = none
    ∧ "dev1" ∈ bucketGet (groupDevicesByServer orphanSnap.devices) "srvX" := by
  refine ⟨rfl, by decide⟩

/-- C2 (amended): for a snapshot with pairwise-distinct device ids, the
grouping partitions exactly the devices whose `server` field is truthy
(non-null, non-empty) — regardless of whether that id names a server
present in the snapshot.  Each such device id occurs exactly once, in the
bucket keyed by its `server` id, and occurs in no bucket otherwise. -/
theorem group_partitions_by_server_truthiness
    (devices : List (String × Device))
    (hnodup : (devices.map Prod.fst).Nodup)
    (did : String) (d : Device) (hmem : (did, d) ∈ devices) (sid : String) :
    (bucketGet (groupDevicesByServer devices) sid).count did
      = if serverKey d = some sid then 1 else 0 := by
  rw [bucketGet_groupDevicesByServer,
    count_filter_keys_nodup devices _ did d hnodup hmem]
  by_cases h : serverKey d = some sid <;> simp [h]

/-- C2 (witness): the amended grouping theorem applied to the concrete
snapshot `wSnap` at device `dev1` and server `srv1`. -/
theorem group_partitions_by_server_truthiness_witness :
    (bucketGet (groupDevicesByServer wSnap.devices) "srv1").count "dev1"
      = if serverKey wDev1 = some "srv1" then 1 else 0 :=
  group_partitions_by_server_truthiness wSnap.devices (by decide) "dev1"
    wDev1 (by decide) "srv1"

/-- C8: the device filter is the identity when simulators are included
(filter toggle off); when only real devices are shown, every surviving
entry is an entry of the full mapping (so its key set is a subset of the
identity result's key set) and carries `is_simulator = false`. -/
theorem getFilteredDevices_identity_and_real_only (s : StoreState) :
    getFilteredDevices { s with showOnlyRealDevices := false } = s.devices
    ∧ (∀ p ∈ getFilteredDevices { s with showOnlyRealDevices := true },
        p.1 ∈ s.devices.map Prod.fst ∧ p.2.is_simulator = false) := by
  constructor
  · simp [getFilteredDevices]
  · intro p hp
    have h : p ∈ s.devices.filter (fun q => !q.2.is_simulator) := by
      simpa [getFilteredDevices] using hp
    refine ⟨List.mem_map_of_mem Prod.fst (List.mem_of_mem_filter h), ?_⟩
    have hkeep := List.of_mem_filter h
    simpa using hkeep

/-- C8 (witness): the filter theorem applied to the concrete store
`wStore`, whose devices are one real device and one simulator. -/
theorem getFilteredDevices_identity_and_real_only_witness :
    getFilteredDevices { wStore with showOnlyRealDevices := false }
      = wStore.devices
    ∧ ("dev1" ∈ wStore.devices.map Prod.fst ∧ wDev1.is_simulator = false) :=
  ⟨(getFilteredDevices_identity_and_real_only wStore).1,
    (getFilteredDevices_identity_and_real_only wStore).2 ("dev1", wDev1)
      (by decide)⟩

/-- C9: `getDevicesForServer` is total — a server id absent from the
grouping yields the empty list rather than a failure — and every returned
element is a grouped device id resolved against the devices mapping and
surviving the simulator toggle (group first, then filter). -/
theorem getDevicesForServer_total_and_shape (s : StoreState)
    (serverId : String) :
    (lookupA s.serverDevices serverId = none →
      getDevicesForServer s serverId = [])
    ∧ (∀ r ∈ getDevicesForServer s serverId,
        r.id ∈ (lookupA s.serverDevices serverId).getD []
        ∧ r.info = lookupA s.devices r.id
        ∧ (s.showOnlyRealDevices = true → resolvedIsSimulator r = false)) := by
  constructor
  · intro h
    simp [getDevicesForServer, h]
  · intro r hr
    simp only [getDevicesForServer] at hr
    have h1 := List.mem_of_mem_filter hr
    have h2 := List.of_mem_filter hr
    rcases List.mem_map.mp h1 with ⟨did, hdid, rfl⟩
    refine ⟨hdid, rfl, ?_⟩
    intro hb
    rw [hb] at h2
    simpa using h2

/-- The resolved record for `dev1` as produced by `getDevicesForServer`
on `wStore`. -/
def wRes1 : ResolvedDevice := { id := "dev1", info := some wDev1 }

/-- C9 (witness): on `wStore`, an unknown server id yields `[]`, and the
resolved real device returned for `srv1` satisfies the shape facts. -/
theorem getDevicesForServer_total_and_shape_witness :
    getDevicesForServer wStore "srv9" = []
    ∧ (wRes1.id ∈ (lookupA wStore.serverDevices "srv1").getD []
        ∧ wRes1.info = lookupA wStore.devices wRes1.id
        ∧ resolvedIsSimulator wRes1 = false) := by
  refine ⟨(getDevicesForServer_total_and_shape wStore "srv9").1 (by decide),
    ?_⟩
  have h := (getDevicesForServer_total_and_shape wStore "srv1").2 wRes1
    (by decide)
  exact ⟨h.1, h.2.1, h.2.2 (by decide)⟩

/-- C4 (amended): with the filter toggle on real-only, the server-card
badge count is the length of the locally-derived (already filtered)
device list; with the toggle showing all devices, the badge count is the
server's self-reported `device_count`, not a locally-derived count. -/
theorem badge_count_matches_toggle (s : StoreState) (serverId : String)
    (srv : Server) :
    serverCardBadgeCount { s with showOnlyRealDevices := true } serverId srv
      = (getDevicesForServer { s with showOnlyRealDevices := true }
          serverId).length
    ∧ serverCardBadgeCount { s with showOnlyRealDevices := false } serverId
        srv
      = srv.device_count := by
  constructor
  · simp [serverCardBadgeCount, serverCardRealDeviceCount,
      getDevicesForServer, List.filter_filter]
  · simp [serverCardBadgeCount]

/-- A server whose self-reported `device_count` (7) disagrees with the
locally-derived count, for the C4 counterexample. -/
def driftServer : Server :=
  { name := "srv1", status := "running", host := "127.0.0.1", port := 4723,
    device_count := 7, max_devices := 5 }

/-- The concrete store `wStore` with the filter toggled to show all
devices. -/
def wStoreAll : StoreState := { wStore with showOnlyRealDevices := false }

/-- C4 (counterexample): with the filter toggle showing all devices, the
badge shows the server's self-reported `device_count` (7), which differs
from the locally-derived filtered device count (1) — the badge does use
the self-reported number in this toggle position. -/
theorem badge_self_reported_when_showing_all :
    serverCardBadgeCount wStoreAll "srv1" driftServer = 7
    ∧ ((getDevicesForServer wStoreAll "srv1").filter
        (fun r => !(resolvedIsSimulator r))).length = 1
    ∧ serverCardBadgeCount wStoreAll "srv1" driftServer
      ≠ ((getDevicesForServer wStoreAll "srv1").filter
          (fun r => !(resolvedIsSimulator r))).length := by
  refine ⟨by decide, by decide, by decide⟩
